import Mathlib

/-!
Verification development for the `errify` repository: a shallow embedding of
the procedural-macro transformation pipeline (argument parsing, return-type
extraction, output assembly, context application) together with a trace
semantics for the generated wrapper code, and theorems settling the frozen
claims about it.
-/

namespace Errify

/-! ## Rust type syntax (the fragment inspected by the macros)

Mirrors the `syn` shapes that `errify-macros/src/utils.rs::ok_ty` and
`errify_macro/output.rs::Output::from_ast` actually distinguish:
path types with segments carrying optional angle-bracketed generic
arguments, and the non-path constructors that `ok_ty` rejects. -/

mutual

/-- `syn::Type`, restricted to the constructors the source distinguishes:
`Type::Path` is inspected structurally; every other constructor
(tuple, reference, ...) falls into the `else` arm of `ok_ty`. -/
inductive RustType where
  | path (segments : List Segment) : RustType
  | tuple : RustType
  | reference : RustType
  | bare (ident : String) : RustType

/-- One `syn::PathSegment`: an identifier plus its argument list. -/
inductive Segment where
  | mk (ident : String) (arguments : PathArgs) : Segment

/-- `syn::PathArguments`. -/
inductive PathArgs where
  | noArgs : PathArgs
  | angle (args : List GenericArg) : PathArgs
  | paren : PathArgs

/-- `syn::GenericArgument`, restricted to the cases `ok_ty` distinguishes:
a type argument versus anything else (lifetime, const, ...). -/
inductive GenericArg where
  | ty (t : RustType) : GenericArg
  | lifetime (name : String) : GenericArg
  | constArg (expr : String) : GenericArg

end

/-- `syn::ReturnType`. -/
inductive ReturnType where
  | default : ReturnType
  | type (ty : RustType) : ReturnType

def Segment.ident : Segment → String
  | .mk i _ => i

def Segment.arguments : Segment → PathArgs
  | .mk _ a => a

/-- The uniform diagnostic of `utils.rs::ok_ty` (`Invalid return type. Expected ...`). -/
def invalidRetMsg : String := "Invalid return type. Expected `Result<...>`"

/-- The distinct diagnostic `ok_ty` emits when the angle brackets are empty. -/
def okNotFoundMsg : String := "`Ok` type of `Result<Ok, Err>` not found"

/-- `errify-macros/src/utils.rs::ok_ty`: extract the first angle-bracketed
generic type argument of the last path segment of the declared return type.
Transcribed guard for guard: bare return, non-path type, missing last
segment, and non-angle-bracketed arguments give the uniform diagnostic;
empty angle brackets give `okNotFoundMsg`; a non-type first argument gives
the uniform diagnostic again. -/
def ok_ty : ReturnType → Except String RustType
  | .default => .error invalidRetMsg
  | .type t =>
    match t with
    | .path segments =>
      match segments.getLast? with
      | none => .error invalidRetMsg
      | some seg =>
        match seg.arguments with
        | .angle args =>
          match args.head? with
          | none => .error okNotFoundMsg
          | some (.ty okT) => .ok okT
          | some (.lifetime _) => .error invalidRetMsg
          | some (.constArg _) => .error invalidRetMsg
        | _ => .error invalidRetMsg
    | _ => .error invalidRetMsg

/-- The Rust `i32` type as a path with no generic arguments. -/
def i32Ty : RustType := .path [.mk "i32" .noArgs]

/-! ## Macro argument model (`errify_macro/input.rs`)

`ExplicitContext` (string literal with format arguments, or an arbitrary
expression), `LazyContext` (zero-argument closure, or a function path), and
the unifying `Context`. The literal's format arguments and expression
bodies are carried as their token text: the macro never inspects them, it
only splices them back into the generated code. -/

/-- `errify_macro/input.rs::ExplicitContext`: an eager context. -/
inductive ExplicitContext where
  | literal (lit : String) (args : List String)
  | expr (expr : String)

/-- `errify_macro/input.rs::LazyContext`: a lazy context. -/
inductive LazyContext where
  | closure (body : String)
  | function (path : String)

/-- `errify_macro/input.rs::Context`. -/
inductive Context where
  | explicit (c : ExplicitContext)
  | lazy (l : LazyContext)

/-- `errify_macro/input.rs::Args`: optional explicit error type override
plus the context specification. -/
structure MacroArgs where
  err_ty : Option RustType
  cx : Context

/-- The crate feature flags `cfg!(feature = "anyhow")` / `cfg!(feature = "eyre")`,
resolved once from the build configuration. -/
structure Features where
  anyhow : Bool
  eyre : Bool

/-- `syn::Visibility` of the annotated function. -/
inductive Visibility where
  | inherited
  | public
  | restricted (path : String)

/-- The annotated function (`syn::ImplItemFn`) as consumed by
`errify_macro/output.rs::Output::from_ast`: every signature decoration the
source reads, with token-level parts (generics, argument list, attributes,
body) carried as their token text. -/
structure FnInput where
  attrs : List String
  vis : Visibility
  defaultness : Bool
  constness : Bool
  asyncness : Bool
  unsafety : Bool
  abi : Option String
  ident : String
  generics : String
  genericsWhere : String
  inputs : List String
  output : ReturnType
  block : String

/-- The `call_expr` built by `from_ast`: the original body re-homed into a
zero-argument closure, invoked (with `.await` when the source function is
`async`) and ascribed the original return type. -/
structure CallExpr where
  isAsync : Bool
  output : RustType
  block : String

/-- The context-application expression emitted by
`errify_macro/output.rs::apply_context`: one template per `Context` shape,
each carrying the wrapped call, the context tokens and the resolved error
type. The two lazy templates invoke their callable only on the `Err` match
arm. -/
inductive CxExprAst where
  | eagerLiteral (call : CallExpr) (lit : String) (args : List String) (errTy : RustType)
  | eagerExpr (call : CallExpr) (expr : String) (errTy : RustType)
  | lazyClosure (call : CallExpr) (body : String) (errTy : RustType)
  | lazyFunction (call : CallExpr) (path : String) (errTy : RustType)

/-- `errify_macro/output.rs::apply_context`, syntactic level: dispatch the
four context shapes onto the four quoted templates. -/
def apply_context (call : CallExpr) (cx : Context) (errTy : RustType) : CxExprAst :=
  match cx with
  | .explicit (.literal lit args) => .eagerLiteral call lit args errTy
  | .explicit (.expr e) => .eagerExpr call e errTy
  | .lazy (.closure b) => .lazyClosure call b errTy
  | .lazy (.function p) => .lazyFunction call p errTy

/-- The canonical anyhow error type spliced by `from_ast`:
`::errify::__private::anyhow::Error`. -/
def anyhowErrorTy : RustType :=
  .path [.mk "errify" .noArgs, .mk "__private" .noArgs, .mk "anyhow" .noArgs, .mk "Error" .noArgs]

/-- The canonical eyre error type spliced by `from_ast`:
`::errify::__private::eyre::Report`. -/
def eyreReportTy : RustType :=
  .path [.mk "errify" .noArgs, .mk "__private" .noArgs, .mk "eyre" .noArgs, .mk "Report" .noArgs]

/-- The emitted return type `::errify::__private::Result<ok, err>`. -/
def resultTy (ok err : RustType) : RustType :=
  .path [.mk "errify" .noArgs, .mk "__private" .noArgs,
         .mk "Result" (.angle [.ty ok, .ty err])]

/-- Diagnostic of `from_ast` when the return type is bare. -/
def bareRetMsg : String := "Result<...> only supported"

/-- Diagnostic of `from_ast` when both backend features are enabled and no
explicit error type is given. -/
def ambiguousErrMsg : String := "Ambiguous error type. Choose either `anyhow` or `eyre`"

/-- Diagnostic of `from_ast` when neither backend feature is enabled and no
explicit error type is given. -/
def noFeatureMsg : String := "None of the `anyhow` or `eyre` features are enabled"

/-- The `err_ty` resolution block of `errify_macro/output.rs::from_ast`
(lines 60-88): an explicit override is taken as given; otherwise both
features enabled is a configuration error, neither enabled is a
configuration error, else the single enabled backend's canonical type is
chosen (the `anyhow` cfg block comes first). -/
def errTyResolve (feat : Features) : Option RustType → Except String RustType
  | some ty => .ok ty
  | none =>
    if feat.anyhow && feat.eyre then .error ambiguousErrMsg
    else if !feat.anyhow && !feat.eyre then .error noFeatureMsg
    else if feat.anyhow then .ok anyhowErrorTy
    else .ok eyreReportTy

/-- The item emitted by `from_ast` (an `ImplItemFn` assembled by
`parse_quote!`). The quoted template lists `#(#attrs)* #defaultness
#constness #asyncness #unsafety #abi fn #ident #generics_impl (#inputs)
#ret #generics_where #block` - there is no `#vis` splice, so parsing the
quoted tokens yields `Visibility::Inherited` for the emitted item. -/
structure OutputFn where
  attrs : List String
  vis : Visibility
  defaultness : Bool
  constness : Bool
  asyncness : Bool
  unsafety : Bool
  abi : Option String
  ident : String
  generics : String
  genericsWhere : String
  inputs : List String
  ret : ReturnType
  body : CxExprAst

/-- `errify_macro/output.rs::Output::from_ast`, transcribed in source
order: (1) the `call_expr` block rejects a bare return type with
`bareRetMsg`; (2) the error type is resolved from the override or the
feature flags; (3) `apply_context` produces the body; (4) the outer
function is assembled, its return type `Result<ok, errTy>` with `ok`
extracted by `ok_ty`, every signature decoration except the visibility
spliced from the input. -/
def from_ast (feat : Features) (args : MacroArgs) (input : FnInput) : Except String OutputFn :=
  match input.output with
  | .default => .error bareRetMsg
  | .type outTy =>
    let call : CallExpr := { isAsync := input.asyncness, output := outTy, block := input.block }
    match errTyResolve feat args.err_ty with
    | .error m => .error m
    | .ok errTy =>
      let cxExpr := apply_context call args.cx errTy
      match ok_ty input.output with
      | .error m => .error m
      | .ok ok =>
        .ok {
          attrs := input.attrs
          vis := .inherited
          defaultness := input.defaultness
          constness := input.constness
          asyncness := input.asyncness
          unsafety := input.unsafety
          abi := input.abi
          ident := input.ident
          generics := input.generics
          genericsWhere := input.genericsWhere
          inputs := input.inputs
          ret := .type (resultTy ok errTy)
          body := cxExpr
        }

/-! ## Runtime semantics of the generated wrapper

`apply_context` emits one of four block templates. Each template is a
sequence of `let` bindings followed by a `match` on the inner call's
result; the evaluator below transcribes each template's evaluation order
as a trace of observable events, so eagerness and invocation counts can
be stated. Context values are denoted by their `Display` rendering (a
`String`), since the generated code only ever uses a context through the
`C: Display + Send + Sync + 'static` bound of `errify::WrapErr`. -/

/-- `core::result::Result` as spliced by the templates
(`::errify::__private::Ok` / `Err`). -/
inductive RResult (V E : Type) where
  | ok (v : V)
  | err (e : E)
deriving DecidableEq, Repr

/-- The observable side effects of one call of the rewritten function:
evaluating the eager format string, evaluating the eager context
expression, running the wrapped original body, invoking the lazy closure,
invoking the lazy context function. -/
inductive Event where
  | formatEval
  | exprEval
  | bodyEval
  | closureCall
  | functionCall
deriving DecidableEq, Repr

/-- The backend's context-carrying error, modelled after the `WrapErr`
impl for `anyhow::Error` in `errify/src/lib.rs` (lines 225-236):
`anyhow::Error::from(err).context(context)` yields an error whose
`Display` is the context and whose root cause is the original error. -/
structure WrappedError (E : Type) where
  context : String
  cause : E
deriving DecidableEq, Repr

/-- `errify/src/lib.rs`: `<anyhow::Error as WrapErr<E>>::wrap_err(err, context)`. -/
def wrapErr {E : Type} (err : E) (context : String) : WrappedError E :=
  { context := context, cause := err }

/-- One resolved piece of a Rust format string: literal text, a positional
argument reference (with `\x7b\x7d` holes already resolved to their
auto-assigned index), or a named capture. -/
inductive FmtPiece where
  | lit (s : String)
  | positional (i : Nat)
  | named (name : String)
deriving DecidableEq, Repr

/-- Rendering of a format string per standard Rust format-string rules,
given the positional arguments and the named captures from the enclosing
scope (all already rendered). Returns `none` exactly when a referenced
argument is missing, which `format!` rejects at compile time; this models
the external `std` formatting machinery that `::errify::error!` delegates
to (via `__private::format_err` / `format!`). -/
def renderFormat : List FmtPiece → List String → List (String × String) → Option String
  | [], _, _ => some ""
  | .lit s :: rest, pos, env =>
    (renderFormat rest pos env).map (fun r => s ++ r)
  | .positional i :: rest, pos, env =>
    match pos[i]? with
    | none => none
    | some v => (renderFormat rest pos env).map (fun r => v ++ r)
  | .named n :: rest, pos, env =>
    match env.lookup n with
    | none => none
    | some v => (renderFormat rest pos env).map (fun r => v ++ r)

/-- The runtime denotation of a parsed `Context` at one call of the
rewritten function: the literal shape carries its resolved format pieces
together with the rendered positional arguments and named captures in
scope; the expression shape carries the evaluated expression's `Display`
rendering; the lazy shapes carry their zero-argument callable. -/
inductive CtxVal where
  | literal (pieces : List FmtPiece) (posArgs : List String) (namedEnv : List (String × String))
  | expr (display : String)
  | closure (f : Unit → String)
  | function (g : Unit → String)

/-- Trace semantics of the four templates of
`errify_macro/output.rs::apply_context`, transcribed binding for binding:

* literal: `let __errify_cx = ::errify::error!(lit, args);` formats
  eagerly, then `let __errify_res = call;` runs the body, then the match
  wraps `Err(err)` as `wrap_err(err, __errify_cx)`;
* expr: `let __errify_cx = expr;` evaluates eagerly, then the body runs,
  then the match wraps;
* closure: `let __errify_cx = def;` only defines the closure (no event),
  the body runs, and `(__errify_cx)()` is invoked inside the `Err` arm
  only;
* function: the body runs and `path()` is invoked inside the `Err` arm
  only.

The result pairs the event trace with the value the block evaluates to. -/
def applyContextEval {V E : Type} : CtxVal → RResult V E → List Event × RResult V (WrappedError E)
  | .literal pieces pos env, body =>
    let cx := (renderFormat pieces pos env).getD ""
    ([.formatEval, .bodyEval],
      match body with
      | .ok v => .ok v
      | .err e => .err (wrapErr e cx))
  | .expr s, body =>
    ([.exprEval, .bodyEval],
      match body with
      | .ok v => .ok v
      | .err e => .err (wrapErr e s))
  | .closure f, body =>
    match body with
    | .ok v => ([.bodyEval], .ok v)
    | .err e => ([.bodyEval, .closureCall], .err (wrapErr e (f ())))
  | .function g, body =>
    match body with
    | .ok v => ([.bodyEval], .ok v)
    | .err e => ([.bodyEval, .functionCall], .err (wrapErr e (g ())))

/-- The context string the specification promises on the error path
(spec 8, error-path context attachment): the rendered literal, or the
`Display` rendering of the expression, closure result, or function
result. Stated from the spec's words, to be compared with the code-level
evaluator. -/
def specContextString : CtxVal → Option String
  | .literal pieces pos env => renderFormat pieces pos env
  | .expr s => some s
  | .closure f => some (f ())
  | .function g => some (g ())

/-! ## The speculative error-type-override parse (`errify_macro/input.rs`)

`ErrifyMacroArgs::parse` and `ErrifyWithMacroArgs::parse` share the same
structure: fork the cursor, try `Type` then an optional comma on the fork,
and commit to the fork only when the comma is present; otherwise parse the
untouched original cursor with the context grammar. The two external `syn`
parsers (`Type`, and the context grammar including its trailing
`is_empty` check) are taken as parameters; forking is modelled by reusing
the original token list. -/

/-- A macro-argument token, as far as the override detection needs to
distinguish: the comma separator versus anything else. -/
inductive Tok where
  | comma
  | other (s : String)
deriving DecidableEq, Repr

/-- `ErrifyMacroArgs::parse` / `ErrifyWithMacroArgs::parse`
(`errify_macro/input.rs` lines 12-30 and 37-55): fork, speculatively
parse a leading type, consume an optional comma on the fork
(`parse::<Option<Token![,]>>` never fails), and commit to the override
interpretation only when the comma was present; in every other case parse
the whole original stream with the context grammar and no override. -/
def errifyArgsParse {Ty Cx : Type}
    (parseType : List Tok → Option (Ty × List Tok))
    (parseCx : List Tok → Except String (Cx × List Tok))
    (input : List Tok) : Except String (Option Ty × Cx × List Tok) :=
  match parseType input with
  | some (ty, rest) =>
    match rest with
    | .comma :: rest2 =>
      match parseCx rest2 with
      | .ok (cx, r) => .ok (some ty, cx, r)
      | .error m => .error m
    | _ =>
      match parseCx input with
      | .ok (cx, r) => .ok (none, cx, r)
      | .error m => .error m
  | none =>
    match parseCx input with
    | .ok (cx, r) => .ok (none, cx, r)
    | .error m => .error m

/-! ## The early design iteration (`errify-macros/src/context_macro`)

The `context` / `with_context` layer classifies the annotated item as a
free function, a method (receiver-bearing), or an impl entry
(`context_macro/input.rs::Input`), and `context_macro/output.rs::Output::parse`
dispatches on that classification. The `Method` and `Impl` branches call
`unimplemented!(..)`, which panics - aborting the expansion process -
rather than returning a `syn::Error`. Expansion outcomes are therefore
modelled with three constructors: success, a span-tagged error value, and
a panic. -/

/-- The outcome of one expansion of the early iteration: `ok` (emitted
tokens), `err` (a `syn::Error`, rendered as a span-tagged diagnostic), or
`panicked` (a Rust panic such as `unimplemented!`, which aborts the
proc-macro invocation instead of producing a diagnostic value). -/
inductive MacroResult (α : Type) where
  | ok (a : α)
  | err (msg : String)
  | panicked (msg : String)

/-- The pattern of a typed argument, as far as `utils.rs::clear_inputs`
distinguishes: a plain identifier versus anything else. -/
inductive Pat where
  | ident (name : String)
  | other

/-- A formal argument (`syn::FnArg`): a receiver (`self`) or a typed
pattern. -/
inductive FnArg where
  | receiver
  | typed (attrs : List String) (pat : Pat) (ty : RustType)

/-- `utils.rs::CleanFnArg`: a sanitized argument with a forwardable
identifier. -/
structure CleanFnArg where
  attrs : List String
  ident : String
  ty : RustType

/-- Diagnostic of `utils.rs::clear_inputs` on a receiver argument. -/
def selfNotSupportedMsg : String := "`self` argument not supported"

/-- `utils.rs::clear_inputs`: enumerate the arguments, reject a receiver,
keep a plain identifier pattern, and synthesize `argN` for any other
pattern. -/
def clearInputsAux : Nat → List FnArg → Except String (List CleanFnArg)
  | _, [] => .ok []
  | idx, arg :: rest =>
    match arg with
    | .receiver => .error selfNotSupportedMsg
    | .typed attrs pat ty =>
      let ident := match pat with
        | .ident n => n
        | .other => s!"arg{idx}"
      match clearInputsAux (idx + 1) rest with
      | .ok tail => .ok ({ attrs := attrs, ident := ident, ty := ty } :: tail)
      | .error m => .error m

/-- `utils.rs::clear_inputs`, starting the enumeration at index 0. -/
def clear_inputs (inputs : List FnArg) : Except String (List CleanFnArg) :=
  clearInputsAux 0 inputs

/-- `context_macro/input.rs::Args` (after conversion from `ContextArgs` /
`WithContextArgs`): no arguments, a literal with format arguments, an
arbitrary expression (named `ErrorType` in the source), a closure, or a
function path. -/
inductive CtxArgs where
  | noArgs
  | literal (lit : String) (args : List String)
  | errorType (expr : String)
  | closure (body : String)
  | function (path : String)

/-- The annotated `syn::ItemFn` of the early iteration. -/
structure ItemFn where
  constness : Bool
  asyncness : Bool
  unsafety : Bool
  abi : Option String
  ident : String
  generics : String
  genericsWhere : String
  inputs : List FnArg
  output : ReturnType
  block : String

/-- `context_macro/input.rs::Input`: the classified annotated item. -/
inductive CtxInput where
  | function (f : ItemFn)
  | method (f : ItemFn)
  | implEntry (tokens : String)

/-- The backend selected by the build configuration. -/
inductive Backend where
  | anyhow
  | eyre

/-- `context_provider.rs::ContextData`. -/
inductive ContextData where
  | literal (lit : String) (args : List String)
  | expr (expr : String)
  | closure (body : String)
  | function (path : String)

/-- The forwarding call expression of `context_macro/output.rs::parse_func`:
`_ident(args)` with `.await` when async and an `unsafe` block when the
source function is unsafe. -/
structure FwdCall where
  ident : String
  callArgs : List String
  awaited : Bool
  inUnsafeBlock : Bool

/-- The context-application expression of the early iteration: the
selected backend plus the shape data and the wrapped call. -/
structure OldCxExpr where
  backend : Backend
  data : ContextData
  call : FwdCall

/-- Diagnostic of `context_provider.rs::generic` with both features on. -/
def cxProviderAmbiguousMsg : String :=
  "Ambiguous using errify_macro provider. Choose either `anyhow` or `eyre`"

/-- Diagnostic of `error_provider.rs::generic` with both features on. -/
def errProviderAmbiguousMsg : String :=
  "Ambiguous using error provider. Choose either `anyhow` or `eyre`"

/-- `context_provider.rs::generic`: reject both-features and
neither-feature configurations, else select the backend's template
(the `anyhow` cfg block first). -/
def contextProviderGeneric (feat : Features) (call : FwdCall) (data : ContextData) :
    Except String OldCxExpr :=
  if feat.anyhow && feat.eyre then .error cxProviderAmbiguousMsg
  else if !feat.anyhow && !feat.eyre then .error noFeatureMsg
  else if feat.anyhow then .ok { backend := .anyhow, data := data, call := call }
  else .ok { backend := .eyre, data := data, call := call }

/-- `error_provider.rs::generic`: same configuration gate, yielding the
backend's canonical error type (`anyhow::Error` or `eyre::Report`). -/
def errorProviderGeneric (feat : Features) : Except String RustType :=
  if feat.anyhow && feat.eyre then .error errProviderAmbiguousMsg
  else if !feat.anyhow && !feat.eyre then .error noFeatureMsg
  else if feat.anyhow then .ok anyhowErrorTy
  else .ok eyreReportTy

/-- Diagnostic of `context_macro/output.rs::parse_func` on empty macro
arguments. -/
def requiresArgsMsg : String :=
  "The macro requires arguments (literal with positions arguments or custom error) above the function"

/-- The panic message of `context_macro/output.rs::parse_method`. -/
def methodUnimplementedMsg : String :=
  "Using the macro with a method (with the Self argument) is not yet supported"

/-- The panic message of `context_macro/output.rs::parse_impl`. -/
def implUnimplementedMsg : String :=
  "Using the macro with a impl block is not yet supported"

/-- The item emitted by the early iteration's `parse_func`: an inner
renamed copy of the original function plus an outer function with
sanitized arguments, normalized return type and the context-application
body. -/
structure OldOutputFn where
  constness : Bool
  asyncness : Bool
  unsafety : Bool
  abi : Option String
  ident : String
  generics : String
  genericsWhere : String
  outerArgs : List CleanFnArg
  ret : ReturnType
  body : OldCxExpr

/-- The tail of `parse_func` shared by the four populated argument
shapes: context provider, `ok_ty`, error provider, assembly. -/
def parseFuncApply (feat : Features) (f : ItemFn) (outerArgs : List CleanFnArg)
    (call : FwdCall) (data : ContextData) : MacroResult OldOutputFn :=
  match contextProviderGeneric feat call data with
  | .error m => .err m
  | .ok cxExpr =>
    match ok_ty f.output with
    | .error m => .err m
    | .ok ok =>
      match errorProviderGeneric feat with
      | .error m => .err m
      | .ok errTy =>
        .ok {
          constness := f.constness
          asyncness := f.asyncness
          unsafety := f.unsafety
          abi := f.abi
          ident := f.ident
          generics := f.generics
          genericsWhere := f.genericsWhere
          outerArgs := outerArgs
          ret := .type (resultTy ok errTy)
          body := cxExpr
        }

/-- `context_macro/output.rs::parse_func`, transcribed in source order:
sanitize the arguments, build the forwarding call, reject empty macro
arguments, map the remaining argument shapes onto `ContextData`, apply
the context provider, and assemble the outer function whose return type
pairs the extracted `Ok` type with the error provider's type. -/
def parse_func (feat : Features) (args : CtxArgs) (f : ItemFn) : MacroResult OldOutputFn :=
  match clear_inputs f.inputs with
  | .error m => .err m
  | .ok outerArgs =>
    let call : FwdCall :=
      { ident := "_" ++ f.ident
        callArgs := outerArgs.map (fun a => a.ident)
        awaited := f.asyncness
        inUnsafeBlock := f.unsafety }
    match args with
    | .noArgs => .err requiresArgsMsg
    | .literal lit fmtArgs =>
      parseFuncApply feat f outerArgs call (.literal lit fmtArgs)
    | .errorType e => parseFuncApply feat f outerArgs call (.expr e)
    | .closure b => parseFuncApply feat f outerArgs call (.closure b)
    | .function p => parseFuncApply feat f outerArgs call (.function p)

/-- `context_macro/output.rs::Output::parse`: dispatch on the classified
target. The `Function` branch runs `parse_func`; the `Method` and `Impl`
branches execute `unimplemented!(..)`, a panic that aborts the expansion
process. -/
def outputParse (feat : Features) (args : CtxArgs) (input : CtxInput) :
    MacroResult OldOutputFn :=
  match input with
  | .function f => parse_func feat args f
  | .method _ => .panicked methodUnimplementedMsg
  | .implEntry _ => .panicked implUnimplementedMsg

/-! ## Concrete fixtures

Concrete instances mirroring the repository's own test fixtures
(`errify/tests/errify.rs`), used to evaluate the embedded pipeline at
specific inputs. -/

/-- The `CustomError` type of the test suite, as a plain path type. -/
def customErrorTy : RustType := .path [.mk "CustomError" .noArgs]

/-- The return type `Result<i32, CustomError>` used throughout the test
suite. -/
def testRetTy : RustType := .path [.mk "Result" (.angle [.ty i32Ty, .ty customErrorTy])]

/-- The default build configuration of the `errify` crate: feature
`anyhow` enabled, feature `eyre` disabled. -/
def anyhowOnly : Features := { anyhow := true, eyre := false }

/-- Both backend features enabled simultaneously. -/
def bothFeatures : Features := { anyhow := true, eyre := true }

/-- The annotated function of the `check_visibility` test in
`errify/tests/errify.rs`: `pub fn test(arg: i32) -> Result<i32, CustomError>`,
annotated `#[errify("literal")]` and called from outside its module. -/
def checkVisibilityFn : FnInput :=
  { attrs := []
    vis := .public
    defaultness := false
    constness := false
    asyncness := false
    unsafety := false
    abi := none
    ident := "test"
    generics := ""
    genericsWhere := ""
    inputs := ["arg: i32"]
    output := .type testRetTy
    block := "Err(CustomError(arg))" }

/-- The macro arguments `("literal")` of the `check_visibility` test: no
error-type override, a literal context with no format arguments. -/
def litArgs : MacroArgs := { err_ty := none, cx := .explicit (.literal "literal" []) }

/-- The receiver-bearing method of the `method` test in
`errify/tests/errify.rs`, as classified by the early iteration's target
parser. -/
def methodFn : ItemFn :=
  { constness := false
    asyncness := false
    unsafety := false
    abi := none
    ident := "func"
    generics := ""
    genericsWhere := ""
    inputs := [FnArg.receiver, FnArg.typed [] (Pat.ident "arg") (RustType.bare "String")]
    output := .type testRetTy
    block := "Err(CustomError(0))" }

/-- The item `from_ast` emits for the `check_visibility` fixture under
the default configuration: same signature decorations except the dropped
visibility, return type `Result<i32, anyhow::Error>`, body produced by
`apply_context`. -/
def checkVisibilityOut : OutputFn :=
  { attrs := []
    vis := .inherited
    defaultness := false
    constness := false
    asyncness := false
    unsafety := false
    abi := none
    ident := "test"
    generics := ""
    genericsWhere := ""
    inputs := ["arg: i32"]
    ret := .type (resultTy i32Ty anyhowErrorTy)
    body := apply_context { isAsync := false, output := testRetTy, block := "Err(CustomError(arg))" }
      litArgs.cx anyhowErrorTy }

/-- A concrete leading-type parser for exercising the speculative
override parse: reads one non-comma token as the type. -/
def tokParseType : List Tok → Option (String × List Tok)
  | .other s :: rest => some (s, rest)
  | _ => none

/-- A concrete context-grammar parser for exercising the speculative
override parse: consumes the whole remaining stream as the context. -/
def tokParseCx (toks : List Tok) : Except String (List Tok × List Tok) :=
  .ok (toks, [])

/-! ## Theorems about the claims -/

/-- C1: for every annotated function whose original body evaluates to
`Err(e)`, the rewritten function returns an error containing the original
error `e` as the wrapped cause together with a context string equal to
the rendered literal (Literal shape) or the `Display` rendering of the
expression, closure result, or function result (Expr/Closure/Function
shapes). -/
theorem errify_c1 {V E : Type} (cv : CtxVal) (body : RResult V E) (e : E) (s : String)
    (hb : body = .err e) (hs : specContextString cv = some s) :
    (applyContextEval cv body).2 = .err { context := s, cause := e } := by
  subst hb
  cases cv with
  | literal pieces pos env =>
    simp only [specContextString] at hs
    simp [applyContextEval, wrapErr, hs]
  | expr d =>
    simp only [specContextString, Option.some.injEq] at hs
    simp [applyContextEval, wrapErr, hs]
  | closure f =>
    simp only [specContextString, Option.some.injEq] at hs
    simp [applyContextEval, wrapErr, hs]
  | function g =>
    simp only [specContextString, Option.some.injEq] at hs
    simp [applyContextEval, wrapErr, hs]

/-- Witness for C1 at the spec's first concrete scenario: context
`("literal \x7barg\x7d = \x7b\x7d", arg)` with `arg = 1` on a body
returning `Err(CustomError(1))` yields the context string
`literal 1 = 1` wrapping the original error. -/
theorem errify_c1_witness :
    (applyContextEval
        (CtxVal.literal
          [FmtPiece.lit "literal ", FmtPiece.named "arg", FmtPiece.lit " = ", FmtPiece.positional 0]
          ["1"] [("arg", "1")])
        (RResult.err "CustomError(1)" : RResult Nat String)).2
      = RResult.err { context := "literal 1 = 1", cause := "CustomError(1)" } :=
  errify_c1 _ _ "CustomError(1)" "literal 1 = 1" rfl rfl

/-- C2 counterexample: with the Literal shape and a body returning
`Ok(7)`, the rewritten call returns `Ok(7)` but the format-string
evaluation IS observed in the trace - the eager shapes construct their
context before the wrapped call, also on the success path. This refutes
the claim that no context-construction side effect is observable on
success for all four context shapes. -/
theorem errify_c2_counterexample :
    (applyContextEval (CtxVal.literal [FmtPiece.lit "ctx"] [] [])
        (RResult.ok 7 : RResult Nat String)).2 = RResult.ok 7
    ∧ Event.formatEval
        ∈ (applyContextEval (CtxVal.literal [FmtPiece.lit "ctx"] [] [])
            (RResult.ok 7 : RResult Nat String)).1 := by
  exact ⟨rfl, by simp [applyContextEval]⟩

/-- C2 amended: for every context shape, when the original body evaluates
to `Ok(v)` the rewritten function returns the same `Ok(v)` and no lazy
callable is invoked (no closure invocation, no context-function
invocation); the eager Literal/Expr shapes do, however, evaluate their
context before the call. -/
theorem errify_c2 {V E : Type} (cv : CtxVal) (v : V) :
    (applyContextEval (V := V) (E := E) cv (.ok v)).2 = .ok v
    ∧ Event.closureCall ∉ (applyContextEval (V := V) (E := E) cv (.ok v)).1
    ∧ Event.functionCall ∉ (applyContextEval (V := V) (E := E) cv (.ok v)).1 := by
  cases cv <;> exact ⟨rfl, by simp [applyContextEval], by simp [applyContextEval]⟩

/-- C3: for the lazy shapes the context-producing callable is invoked at
most once, only after the wrapped call has produced its result, and only
on the `Err` branch - the trace is exactly the body evaluation followed
by one invocation when and only when the body failed. -/
theorem errify_c3 {V E : Type} (f g : Unit → String) (body : RResult V E) :
    (applyContextEval (CtxVal.closure f) body).1
        = Event.bodyEval :: (match body with | .ok _ => [] | .err _ => [Event.closureCall])
    ∧ (applyContextEval (CtxVal.function g) body).1
        = Event.bodyEval :: (match body with | .ok _ => [] | .err _ => [Event.functionCall])
    ∧ (applyContextEval (CtxVal.closure f) body).1.count Event.closureCall ≤ 1
    ∧ (applyContextEval (CtxVal.function g) body).1.count Event.functionCall ≤ 1 := by
  cases body with
  | ok v => exact ⟨rfl, rfl, Nat.zero_le 1, Nat.zero_le 1⟩
  | err e => exact ⟨rfl, rfl, Nat.le_refl 1, Nat.le_refl 1⟩

/-- C4: evaluation of the embedded `from_ast` at the repository's own
`check_visibility` fixture (a `pub fn` annotated `#[errify("literal")]`
under the default `anyhow` configuration). The expansion succeeds and
preserves attributes, constness, asyncness, unsafety, ABI, inputs and
identifier, but the emitted item's visibility is `Inherited` (private)
while the source item is `pub`: the quoted output template of
`errify_macro/output.rs` has no `#vis` splice, contradicting both the
signature-preservation property and the test, which calls the annotated
function from outside its module. -/
theorem errify_c4_bug :
    (from_ast anyhowOnly litArgs checkVisibilityFn).map OutputFn.vis
        = Except.ok Visibility.inherited
    ∧ checkVisibilityFn.vis = Visibility.public
    ∧ (from_ast anyhowOnly litArgs checkVisibilityFn).map OutputFn.attrs
        = Except.ok checkVisibilityFn.attrs
    ∧ (from_ast anyhowOnly litArgs checkVisibilityFn).map OutputFn.constness
        = Except.ok checkVisibilityFn.constness
    ∧ (from_ast anyhowOnly litArgs checkVisibilityFn).map OutputFn.asyncness
        = Except.ok checkVisibilityFn.asyncness
    ∧ (from_ast anyhowOnly litArgs checkVisibilityFn).map OutputFn.unsafety
        = Except.ok checkVisibilityFn.unsafety
    ∧ (from_ast anyhowOnly litArgs checkVisibilityFn).map OutputFn.abi
        = Except.ok checkVisibilityFn.abi
    ∧ (from_ast anyhowOnly litArgs checkVisibilityFn).map OutputFn.inputs
        = Except.ok checkVisibilityFn.inputs
    ∧ (from_ast anyhowOnly litArgs checkVisibilityFn).map OutputFn.ident
        = Except.ok checkVisibilityFn.ident :=
  ⟨rfl, rfl, rfl, rfl, rfl, rfl, rfl, rfl, rfl⟩

/-- Helper: a successful `errTyResolve` yields either the explicit
override or, with no override, the canonical type of the single enabled
backend. -/
theorem errTyResolve_spec (feat : Features) (o : Option RustType) (t : RustType)
    (h : errTyResolve feat o = .ok t) :
    o = some t
    ∨ (o = none
       ∧ ((feat.anyhow = true ∧ feat.eyre = false ∧ t = anyhowErrorTy)
          ∨ (feat.anyhow = false ∧ feat.eyre = true ∧ t = eyreReportTy))) := by
  cases o with
  | some ty =>
    left
    simp only [errTyResolve, Except.ok.injEq] at h
    rw [h]
  | none =>
    right
    refine ⟨rfl, ?_⟩
    unfold errTyResolve at h
    cases ha : feat.anyhow <;> cases he : feat.eyre <;>
      simp only [ha, he, Bool.and_self, Bool.and_true, Bool.true_and, Bool.and_false,
        Bool.false_and, Bool.not_true, Bool.not_false, if_true, if_false,
        ite_true, ite_false, Except.ok.injEq, reduceCtorEq] at h
    · exact Or.inr ⟨rfl, rfl, h.symm⟩
    · exact Or.inl ⟨rfl, rfl, h.symm⟩

/-- C5: every successful expansion emits the return type
`Result<T, E'>` where `T` is the success type extracted from the original
return type by `ok_ty` and `E'` is the caller-supplied override when one
was given, otherwise the canonical error type of the single enabled
backend (`anyhow::Error` or `eyre::Report`). -/
theorem errify_c5 (feat : Features) (args : MacroArgs) (input : FnInput) (out : OutputFn)
    (h : from_ast feat args input = .ok out) :
    ∃ okT errT, ok_ty input.output = .ok okT
      ∧ out.ret = .type (resultTy okT errT)
      ∧ (args.err_ty = some errT
         ∨ (args.err_ty = none
            ∧ ((feat.anyhow = true ∧ feat.eyre = false ∧ errT = anyhowErrorTy)
               ∨ (feat.anyhow = false ∧ feat.eyre = true ∧ errT = eyreReportTy)))) := by
  unfold from_ast at h
  split at h
  · exact absurd h (by simp)
  · rename_i outTy hout
    rw [hout] at h ⊢
    cases herr : errTyResolve feat args.err_ty with
    | error m =>
      rw [herr] at h
      simp only [reduceCtorEq] at h
    | ok errT =>
      rw [herr] at h
      cases hok : ok_ty (ReturnType.type outTy) with
      | error m =>
        rw [hok] at h
        simp only [reduceCtorEq] at h
      | ok okT =>
        rw [hok] at h
        simp only [Except.ok.injEq] at h
        refine ⟨okT, errT, rfl, ?_, errTyResolve_spec feat args.err_ty errT herr⟩
        rw [← h]

/-- Witness for C5: at the `check_visibility` fixture under the default
`anyhow` configuration, the emitted return type is
`Result<i32, ::errify::__private::anyhow::Error>` with `i32` extracted
from the original `Result<i32, CustomError>` and no override in play. -/
theorem errify_c5_witness :
    ∃ okT errT, ok_ty checkVisibilityFn.output = Except.ok okT
      ∧ checkVisibilityOut.ret = ReturnType.type (resultTy okT errT)
      ∧ (litArgs.err_ty = some errT
         ∨ (litArgs.err_ty = none
            ∧ ((anyhowOnly.anyhow = true ∧ anyhowOnly.eyre = false ∧ errT = anyhowErrorTy)
               ∨ (anyhowOnly.anyhow = false ∧ anyhowOnly.eyre = true ∧ errT = eyreReportTy)))) :=
  errify_c5 anyhowOnly litArgs checkVisibilityFn checkVisibilityOut rfl

/-- C6 counterexample: with both backend features enabled, an expansion
that supplies an explicit error-type override succeeds - the
configuration check in `from_ast` only runs when no override is given, so
both-features does not yield a diagnostic for every expansion. -/
theorem errify_c6_counterexample :
    (from_ast bothFeatures { err_ty := some customErrorTy, cx := .explicit (.literal "ctx" []) }
        checkVisibilityFn).isOk = true := by
  rfl

/-- C6 amended: whenever no explicit error-type override is supplied and
the two backend features are both enabled (or both disabled), every
expansion with a type-annotated return yields the corresponding
configuration-error diagnostic, regardless of the context shape. -/
theorem errify_c6 (feat : Features) (cx : Context) (input : FnInput) (t : RustType)
    (hret : input.output = .type t) (hfeat : feat.anyhow = feat.eyre) :
    from_ast feat { err_ty := none, cx := cx } input
      = .error (if feat.anyhow then ambiguousErrMsg else noFeatureMsg) := by
  unfold from_ast
  rw [hret]
  cases ha : feat.anyhow with
  | true =>
    have he : feat.eyre = true := by rw [← hfeat, ha]
    simp [errTyResolve, ha, he]
  | false =>
    have he : feat.eyre = false := by rw [← hfeat, ha]
    simp [errTyResolve, ha, he]

/-- Witness for C6 amended: with both features enabled and no override,
the `check_visibility` fixture expands to the ambiguity diagnostic. -/
theorem errify_c6_witness :
    from_ast bothFeatures { err_ty := none, cx := Context.explicit (.literal "literal" []) }
        checkVisibilityFn
      = Except.error ambiguousErrMsg := by
  simpa using
    errify_c6 bothFeatures (Context.explicit (.literal "literal" [])) checkVisibilityFn testRetTy
      rfl rfl

/-- C7: the argument parser commits to the error-type-override
interpretation exactly when the speculative leading-type parse succeeds
and the next token is a comma, in which case the context grammar consumes
the remainder after the comma; in every other case nothing of the
speculative parse is kept and the entire original token stream is handed
to the context grammar with no override. -/
theorem errify_c7 {Ty Cx : Type} (pT : List Tok → Option (Ty × List Tok))
    (pC : List Tok → Except String (Cx × List Tok)) (input : List Tok) :
    (∀ ty rest2, pT input = some (ty, Tok.comma :: rest2) →
      errifyArgsParse pT pC input = (pC rest2).map (fun p => (some ty, p)))
    ∧ ((∀ ty rest2, pT input ≠ some (ty, Tok.comma :: rest2)) →
      errifyArgsParse pT pC input = (pC input).map (fun p => (none, p))) := by
  constructor
  · intro ty rest2 hty
    unfold errifyArgsParse
    rw [hty]
    cases hr : pC rest2 with
    | ok p => simp [hr, Except.map]
    | error m => simp [hr, Except.map]
  · intro hno
    unfold errifyArgsParse
    cases hty : pT input with
    | none => cases pC input <;> rfl
    | some p =>
      obtain ⟨ty, rest⟩ := p
      cases rest with
      | nil => cases pC input <;> rfl
      | cons tk rest2 =>
        cases tk with
        | comma => exact absurd hty (hno ty rest2)
        | other s => cases pC input <;> rfl

/-- Witness for C7: with a one-token type parser and a consume-all
context parser, `MyError , lit` commits to the override and parses the
context from the remainder, while a single-token stream (type parse
succeeds but no comma follows) falls back to parsing the whole original
stream with no override. -/
theorem errify_c7_witness :
    errifyArgsParse tokParseType tokParseCx [Tok.other "MyError", Tok.comma, Tok.other "lit"]
      = Except.ok (some "MyError", [Tok.other "lit"], [])
    ∧ errifyArgsParse tokParseType tokParseCx [Tok.other "onlyexpr"]
      = Except.ok (none, [Tok.other "onlyexpr"], []) := by
  constructor
  · exact
      (errify_c7 tokParseType tokParseCx [Tok.other "MyError", Tok.comma, Tok.other "lit"]).1
        "MyError" [Tok.other "lit"] rfl
  · refine Eq.trans
      ((errify_c7 tokParseType tokParseCx [Tok.other "onlyexpr"]).2 ?_) rfl
    intro ty rest2 h
    simp only [tokParseType, Option.some.injEq, Prod.mk.injEq] at h
    exact absurd h.2 (by simp)

/-- C8: `ok_ty` returns the first angle-bracketed generic type argument
whenever the return type is a path whose last segment carries
angle-bracketed arguments with a type in first position, and each listed
deviation - bare/absent return type, non-path type, missing
angle-bracketed generics - fails with the uniform diagnostic
`Invalid return type. Expected Result<...>`; in particular a bare `i32`
return type always produces this failure. -/
theorem errify_c8 :
    (∀ (segs : List Segment) (name : String) (okT : RustType) (rest : List GenericArg),
      segs.getLast? = some (.mk name (.angle (.ty okT :: rest))) →
      ok_ty (.type (.path segs)) = .ok okT)
    ∧ ok_ty .default = .error invalidRetMsg
    ∧ ok_ty (.type .tuple) = .error invalidRetMsg
    ∧ ok_ty (.type .reference) = .error invalidRetMsg
    ∧ (∀ s, ok_ty (.type (.bare s)) = .error invalidRetMsg)
    ∧ (∀ (segs : List Segment) (name : String),
      segs.getLast? = some (.mk name .noArgs) →
      ok_ty (.type (.path segs)) = .error invalidRetMsg)
    ∧ (∀ (segs : List Segment) (name : String),
      segs.getLast? = some (.mk name .paren) →
      ok_ty (.type (.path segs)) = .error invalidRetMsg)
    ∧ ok_ty (.type i32Ty) = .error invalidRetMsg := by
  refine ⟨?_, rfl, rfl, rfl, fun s => rfl, ?_, ?_, rfl⟩
  · intro segs name okT rest h
    simp [ok_ty, h, Segment.arguments]
  · intro segs name h
    simp [ok_ty, h, Segment.arguments]
  · intro segs name h
    simp [ok_ty, h, Segment.arguments]

/-- Witness for C8: `Result<i32, CustomError>` extracts `i32`, and a last
segment with no generic arguments (`Result` bare) gives the uniform
diagnostic. -/
theorem errify_c8_witness :
    ok_ty (.type (.path [.mk "Result" (.angle [.ty i32Ty, .ty customErrorTy])])) = .ok i32Ty
    ∧ ok_ty (.type (.path [.mk "Result" .noArgs])) = .error invalidRetMsg
    ∧ ok_ty (.type (.path [.mk "Result" .paren])) = .error invalidRetMsg :=
  ⟨errify_c8.1 [.mk "Result" (.angle [.ty i32Ty, .ty customErrorTy])] "Result" i32Ty
      [.ty customErrorTy] rfl,
   errify_c8.2.2.2.2.2.1 [.mk "Result" .noArgs] "Result" rfl,
   errify_c8.2.2.2.2.2.2.1 [.mk "Result" .paren] "Result" rfl⟩

/-- C9 counterexample: applying the early iteration's macro to a
receiver-bearing method aborts the expansion with the `unimplemented!`
panic - a crash of the expansion process, not a span-tagged
error-producing case. -/
theorem errify_c9_counterexample :
    outputParse anyhowOnly (CtxArgs.literal "literal" []) (CtxInput.method methodFn)
      = MacroResult.panicked methodUnimplementedMsg :=
  rfl

/-- C9 amended: in the early design iteration, applying the macro to a
`Method` or `ImplEntry` target always fails loudly and predictably - a
hard abort carrying the `unimplemented!` message, never a silent no-op or
a successful expansion - but the failure is a panic of the expansion
process, not a span-tagged error value. -/
theorem errify_c9 (feat : Features) (args : CtxArgs) (m : ItemFn) (tokens : String) :
    outputParse feat args (CtxInput.method m) = MacroResult.panicked methodUnimplementedMsg
    ∧ outputParse feat args (CtxInput.implEntry tokens)
        = MacroResult.panicked implUnimplementedMsg :=
  ⟨rfl, rfl⟩

/-- C10: `ok_ty` never checks that the path is named `Result`: for every
return type that is a path whose last segment - of any name - carries
angle-bracketed generic arguments with a type in first position, it
succeeds and returns that first type argument. -/
theorem errify_c10 (segs : List Segment) (name : String) (okT : RustType)
    (rest : List GenericArg)
    (h : segs.getLast? = some (.mk name (.angle (.ty okT :: rest)))) :
    ok_ty (.type (.path segs)) = .ok okT := by
  simp [ok_ty, h, Segment.arguments]

/-- Witness for C10: `Vec<i32>` and `Option<T>` are accepted by `ok_ty`,
returning `i32` and `T` respectively instead of rejecting the non-Result
shape. -/
theorem errify_c10_witness :
    ok_ty (.type (.path [.mk "Vec" (.angle [.ty i32Ty])])) = .ok i32Ty
    ∧ ok_ty (.type (.path [.mk "Option" (.angle [.ty (RustType.bare "T")])]))
        = .ok (RustType.bare "T") :=
  ⟨errify_c10 [.mk "Vec" (.angle [.ty i32Ty])] "Vec" i32Ty [] rfl,
   errify_c10 [.mk "Option" (.angle [.ty (RustType.bare "T")])] "Option" (RustType.bare "T") [] rfl⟩

end Errify
